import Mathlib

/-!
Verification of the sprite geometry core of pixi.js (`src/core/sprites/Sprite.js`).

The sprite's numeric state is embedded shallowly over `ℚ`: the world transform
is an affine map `(a, b, c, d, tx, ty)`, the texture carries a logical frame
`orig` and an optional trim rectangle, and the 16-slot `vertexData` buffer is a
function `Fin 16 → ℚ` (slots 0–7 hold the render quad, slots 8–15 the bounds
quad).  Every operation below is translated statement-by-statement from the
JavaScript source; sequential buffer writes become chained `setSlot` updates.
-/

set_option linter.unreachableTactic false
set_option linter.unusedTactic false

namespace Pixi

/-- A 2D point with rational coordinates (`PIXI.Point`). -/
structure Point where
  x : ℚ
  y : ℚ
deriving DecidableEq

/-- An axis-aligned rectangle `(x, y, width, height)` (`PIXI.Rectangle`). -/
structure Rect where
  x : ℚ
  y : ℚ
  width : ℚ
  height : ℚ
deriving DecidableEq

/-- An affine world transform `(a, b, c, d, tx, ty)`: forward map is
`x' = a·x + c·y + tx`, `y' = b·x + d·y + ty` (`PIXI.Matrix`). -/
structure Matrix where
  a : ℚ
  b : ℚ
  c : ℚ
  d : ℚ
  tx : ℚ
  ty : ℚ
deriving DecidableEq

/-- The texture data the sprite geometry reads: the logical frame `orig`
and the optional trim rectangle (`PIXI.Texture`). -/
structure Texture where
  orig : Rect
  trim : Option Rect
deriving DecidableEq

/-- The sprite state used by the geometry core: anchor, texture, remembered
desired size `_width`/`_height`, scale, accumulated world transform, the
`textureDirty` flag and the 16-slot geometry buffer `vertexData`. -/
@[ext]
structure Sprite where
  anchor : Point
  _texture : Texture
  _width : ℚ
  _height : ℚ
  scale : Point
  worldTransform : Matrix
  textureDirty : Bool
  vertexData : Fin 16 → ℚ

/-- Write value `x` into slot `i` of the geometry buffer, leaving all other
slots unchanged (one JavaScript statement `vertexData[i] = x`). -/
def setSlot (v : Fin 16 → ℚ) (i : Fin 16) (x : ℚ) : Fin 16 → ℚ :=
  fun j => if j = i then x else v j

/-- Local extent `w1` of `calculateVertices`: `trim.x - anchor.x * orig.width`
when trimmed, `orig.width * -anchor.x` otherwise. -/
def w1val (s : Sprite) : ℚ :=
  match s._texture.trim with
  | some trim => trim.x - s.anchor.x * s._texture.orig.width
  | none => s._texture.orig.width * (-s.anchor.x)

/-- Local extent `w0` of `calculateVertices`: `w1 + trim.width` when trimmed,
`orig.width * (1 - anchor.x)` otherwise. -/
def w0val (s : Sprite) : ℚ :=
  match s._texture.trim with
  | some trim => w1val s + trim.width
  | none => s._texture.orig.width * (1 - s.anchor.x)

/-- Local extent `h1` of `calculateVertices`: `trim.y - anchor.y * orig.height`
when trimmed, `orig.height * -anchor.y` otherwise. -/
def h1val (s : Sprite) : ℚ :=
  match s._texture.trim with
  | some trim => trim.y - s.anchor.y * s._texture.orig.height
  | none => s._texture.orig.height * (-s.anchor.y)

/-- Local extent `h0` of `calculateVertices`: `h1 + trim.height` when trimmed,
`orig.height * (1 - anchor.y)` otherwise. -/
def h0val (s : Sprite) : ℚ :=
  match s._texture.trim with
  | some trim => h1val s + trim.height
  | none => s._texture.orig.height * (1 - s.anchor.y)

/-- `Sprite.prototype.calculateVertices`: computes `worldTransform * vertices`
and stores the four render-quad corners in slots 0–7 of `vertexData`. -/
def calculateVertices (s : Sprite) : Sprite :=
  let wt := s.worldTransform
  let w0 := w0val s
  let w1 := w1val s
  let h0 := h0val s
  let h1 := h1val s
  let vd := s.vertexData
  let vd := setSlot vd 0 (wt.a * w1 + wt.c * h1 + wt.tx)
  let vd := setSlot vd 1 (wt.d * h1 + wt.b * w1 + wt.ty)
  let vd := setSlot vd 2 (wt.a * w0 + wt.c * h1 + wt.tx)
  let vd := setSlot vd 3 (wt.d * h1 + wt.b * w0 + wt.ty)
  let vd := setSlot vd 4 (wt.a * w0 + wt.c * h0 + wt.tx)
  let vd := setSlot vd 5 (wt.d * h0 + wt.b * w0 + wt.ty)
  let vd := setSlot vd 6 (wt.a * w1 + wt.c * h0 + wt.tx)
  let vd := setSlot vd 7 (wt.d * h0 + wt.b * w1 + wt.ty)
  { s with vertexData := vd }

/-- Copy branch of `Sprite.prototype.calculateBoundsVertices`: slots 0–7 are
copied verbatim into slots 8–15. -/
def copyBounds (s : Sprite) : Sprite :=
  let vd := s.vertexData
  let vd := setSlot vd 8 (s.vertexData 0)
  let vd := setSlot vd 9 (s.vertexData 1)
  let vd := setSlot vd 10 (s.vertexData 2)
  let vd := setSlot vd 11 (s.vertexData 3)
  let vd := setSlot vd 12 (s.vertexData 4)
  let vd := setSlot vd 13 (s.vertexData 5)
  let vd := setSlot vd 14 (s.vertexData 6)
  let vd := setSlot vd 15 (s.vertexData 7)
  { s with vertexData := vd }

/-- Recompute branch of `Sprite.prototype.calculateBoundsVertices`: slots 8–15
are recomputed from the untrimmed half-extent formulas against the current
world transform. -/
def recomputeBounds (s : Sprite) : Sprite :=
  let wt := s.worldTransform
  let orig := s._texture.orig
  let w0 := orig.width * (1 - s.anchor.x)
  let w1 := orig.width * (-s.anchor.x)
  let h0 := orig.height * (1 - s.anchor.y)
  let h1 := orig.height * (-s.anchor.y)
  let vd := s.vertexData
  let vd := setSlot vd 8 (wt.a * w1 + wt.c * h1 + wt.tx)
  let vd := setSlot vd 9 (wt.d * h1 + wt.b * w1 + wt.ty)
  let vd := setSlot vd 10 (wt.a * w0 + wt.c * h1 + wt.tx)
  let vd := setSlot vd 11 (wt.d * h1 + wt.b * w0 + wt.ty)
  let vd := setSlot vd 12 (wt.a * w0 + wt.c * h0 + wt.tx)
  let vd := setSlot vd 13 (wt.d * h0 + wt.b * w0 + wt.ty)
  let vd := setSlot vd 14 (wt.a * w1 + wt.c * h0 + wt.tx)
  let vd := setSlot vd 15 (wt.d * h0 + wt.b * w1 + wt.ty)
  { s with vertexData := vd }

/-- `Sprite.prototype.calculateBoundsVertices`: if there is no trim, or the
trim's width and height equal the logical frame's width and height, copy
slots 0–7 into slots 8–15; otherwise recompute slots 8–15 from the untrimmed
formulas (source condition
`!trim || trim.width === orig.width && trim.height === orig.height`). -/
def calculateBoundsVertices (s : Sprite) : Sprite :=
  match s._texture.trim with
  | none => copyBounds s
  | some trim =>
      if trim.width = s._texture.orig.width ∧ trim.height = s._texture.orig.height
      then copyBounds s
      else recomputeBounds s

/-- `Sprite.prototype.getBounds` (cache-free computation path): recompute the
bounds quad, reduce it to `minX/maxX/minY/maxY` by unrolled comparisons, and
when the child list is non-empty union with the child-aggregate rectangle
supplied by the external `containerGetBounds` capability. -/
def getBounds (s : Sprite) (childrenLength : Nat) (childBounds : Rect) : Rect :=
  let s2 := calculateBoundsVertices s
  let vd := s2.vertexData
  let x1 := vd 8
  let y1 := vd 9
  let x2 := vd 10
  let y2 := vd 11
  let x3 := vd 12
  let y3 := vd 13
  let x4 := vd 14
  let y4 := vd 15
  let minX := x1
  let minX := if x2 < minX then x2 else minX
  let minX := if x3 < minX then x3 else minX
  let minX := if x4 < minX then x4 else minX
  let minY := y1
  let minY := if y2 < minY then y2 else minY
  let minY := if y3 < minY then y3 else minY
  let minY := if y4 < minY then y4 else minY
  let maxX := x1
  let maxX := if x2 > maxX then x2 else maxX
  let maxX := if x3 > maxX then x3 else maxX
  let maxX := if x4 > maxX then x4 else maxX
  let maxY := y1
  let maxY := if y2 > maxY then y2 else maxY
  let maxY := if y3 > maxY then y3 else maxY
  let maxY := if y4 > maxY then y4 else maxY
  if childrenLength ≠ 0 then
    let w0 := childBounds.x
    let w1 := childBounds.x + childBounds.width
    let h0 := childBounds.y
    let h1 := childBounds.y + childBounds.height
    let minX := if minX < w0 then minX else w0
    let minY := if minY < h0 then minY else h0
    let maxX := if maxX > w1 then maxX else w1
    let maxY := if maxY > h1 then maxY else h1
    ⟨minX, minY, maxX - minX, maxY - minY⟩
  else
    ⟨minX, minY, maxX - minX, maxY - minY⟩

/-- `Sprite.prototype.getLocalBounds`: the full logical box in local space. -/
def getLocalBounds (s : Sprite) : Rect :=
  ⟨-s._texture.orig.width * s.anchor.x,
   -s._texture.orig.height * s.anchor.y,
   s._texture.orig.width,
   s._texture.orig.height⟩

/-- Modelled from the spec: the external transform capability's
inverse-transform operation (`Matrix.applyInverse`, not under `src/`).  The
spec's §4.5 applies the inverse of the world transform, whose forward map is
`x' = a·x + c·y + tx`, `y' = b·x + d·y + ty`; for determinant `a·d - b·c ≠ 0`
this is the unique inverse affine map. -/
def Matrix.applyInverse (m : Matrix) (p : Point) : Point :=
  let det := m.a * m.d - m.b * m.c
  ⟨(m.d * (p.x - m.tx) - m.c * (p.y - m.ty)) / det,
   (m.a * (p.y - m.ty) - m.b * (p.x - m.tx)) / det⟩

/-- `Sprite.prototype.containsPoint`: inverse-transform the world point into
local space, then test it strictly against the full logical box shifted by the
anchor (second axis tested only when the first passes). -/
def containsPoint (s : Sprite) (point : Point) : Bool :=
  let tempPoint := Matrix.applyInverse s.worldTransform point
  let width := s._texture.orig.width
  let height := s._texture.orig.height
  let x1 := -width * s.anchor.x
  if x1 < tempPoint.x ∧ tempPoint.x < x1 + width then
    let y1 := -height * s.anchor.y
    if y1 < tempPoint.y ∧ tempPoint.y < y1 + height then true
    else false
  else false

namespace utils

/-- Modelled from the spec: the sign helper (`utils.sign`, not under `src/`).
Per §4.6 the setter uses `sign(scaleX) or 1 if scaleX == 0`, so the helper
itself returns 0 at 0, 1 on positives and -1 on negatives. -/
def sign (x : ℚ) : ℚ :=
  if 0 < x then 1 else if x < 0 then -1 else 0

end utils

/-- Getter of the `width` property: `|scale.x| * texture.orig.width`. -/
def width_get (s : Sprite) : ℚ :=
  |s.scale.x| * s._texture.orig.width

/-- Setter of the `width` property: `sign = utils.sign(scale.x) || 1`, then
`scale.x = sign * value / texture.orig.width` and `_width = value`. -/
def width_set (s : Sprite) (value : ℚ) : Sprite :=
  let sg := utils.sign s.scale.x
  let sg := if sg = 0 then 1 else sg
  { s with scale := ⟨sg * value / s._texture.orig.width, s.scale.y⟩,
           _width := value }

/-- Getter of the `height` property: `|scale.y| * texture.orig.height`. -/
def height_get (s : Sprite) : ℚ :=
  |s.scale.y| * s._texture.orig.height

/-- Setter of the `height` property: `sign = utils.sign(scale.y) || 1`, then
`scale.y = sign * value / texture.orig.height` and `_height = value`. -/
def height_set (s : Sprite) (value : ℚ) : Sprite :=
  let sg := utils.sign s.scale.y
  let sg := if sg = 0 then 1 else sg
  { s with scale := ⟨s.scale.x, sg * value / s._texture.orig.height⟩,
           _height := value }

/-- `Sprite.prototype._onTextureUpdate`: sets the dirty flag, then, for each
axis whose remembered desired size is non-zero (JavaScript truthiness of
`this._width` / `this._height`), re-derives the scale as
`utils.sign(scale) * remembered / orig dimension` (note: plain `utils.sign`,
without the setter's `|| 1` default). -/
def _onTextureUpdate (s : Sprite) : Sprite :=
  let s1 : Sprite := { s with textureDirty := true }
  let s2 : Sprite :=
    if s1._width ≠ 0 then
      { s1 with scale :=
          ⟨utils.sign s1.scale.x * s1._width / s1._texture.orig.width,
           s1.scale.y⟩ }
    else s1
  if s2._height ≠ 0 then
    { s2 with scale :=
        ⟨s2.scale.x,
         utils.sign s2.scale.y * s2._height / s2._texture.orig.height⟩ }
  else s2

/-- A sprite with identity world transform, no trim, centered anchor, logical
frame 10×10 and a zeroed geometry buffer. -/
def exCentered : Sprite where
  anchor := ⟨1/2, 1/2⟩
  _texture := ⟨⟨0, 0, 10, 10⟩, none⟩
  _width := 0
  _height := 0
  scale := ⟨1, 1⟩
  worldTransform := ⟨1, 0, 0, 1, 0, 0⟩
  textureDirty := false
  vertexData := fun _ => 0

/-- A sprite with identity world transform, logical frame 10×10, trim
rectangle {x:2, y:3, width:4, height:5}, anchor (0,0) and a zeroed buffer. -/
def exTrimmed : Sprite where
  anchor := ⟨0, 0⟩
  _texture := ⟨⟨0, 0, 10, 10⟩, some ⟨2, 3, 4, 5⟩⟩
  _width := 0
  _height := 0
  scale := ⟨1, 1⟩
  worldTransform := ⟨1, 0, 0, 1, 0, 0⟩
  textureDirty := false
  vertexData := fun _ => 0

/-- A sprite whose trim rectangle has exactly the logical frame's width and
height, under a shearing transform, with a distinctive geometry buffer. -/
def exFullTrim : Sprite where
  anchor := ⟨1/4, 1/3⟩
  _texture := ⟨⟨0, 0, 10, 10⟩, some ⟨1, 2, 10, 10⟩⟩
  _width := 0
  _height := 0
  scale := ⟨1, 1⟩
  worldTransform := ⟨2, 1, -1, 3, 4, 5⟩
  textureDirty := false
  vertexData := fun j => (j.val : ℚ)

/-- A sprite with identity world transform, no trim, anchor (0,0) and logical
frame 10×10. -/
def exAnchor0 : Sprite where
  anchor := ⟨0, 0⟩
  _texture := ⟨⟨0, 0, 10, 10⟩, none⟩
  _width := 0
  _height := 0
  scale := ⟨1, 1⟩
  worldTransform := ⟨1, 0, 0, 1, 0, 0⟩
  textureDirty := false
  vertexData := fun _ => 0

/-- A sprite with identity world transform, no trim, anchor (0,0), logical
frame 8×8 and the render quad already computed, so its own bounds-derived
rectangle is (0,0,8,8). -/
def exBounds8 : Sprite :=
  calculateVertices
    { anchor := ⟨0, 0⟩
      _texture := ⟨⟨0, 0, 8, 8⟩, none⟩
      _width := 0
      _height := 0
      scale := ⟨1, 1⟩
      worldTransform := ⟨1, 0, 0, 1, 0, 0⟩
      textureDirty := false
      vertexData := fun _ => 0 }

/-- A sprite with logical frame 100×100 and scale (-1,-1), for the sizing
round-trip scenario. -/
def exSize : Sprite where
  anchor := ⟨0, 0⟩
  _texture := ⟨⟨0, 0, 100, 100⟩, none⟩
  _width := 0
  _height := 0
  scale := ⟨-1, -1⟩
  worldTransform := ⟨1, 0, 0, 1, 0, 0⟩
  textureDirty := false
  vertexData := fun _ => 0

/-- A sprite with scale.x = 0 and a remembered desired width of 200 over a
logical frame 100×100, for the deferred re-derivation scenario. -/
def exDeferred : Sprite where
  anchor := ⟨0, 0⟩
  _texture := ⟨⟨0, 0, 100, 100⟩, none⟩
  _width := 200
  _height := 0
  scale := ⟨0, 1⟩
  worldTransform := ⟨1, 0, 0, 1, 0, 0⟩
  textureDirty := false
  vertexData := fun _ => 0

/-- A sprite with scale (-1,-2), remembered width 200 and height 300 over a
logical frame 100×50, for the agreeing deferred re-derivation scenario. -/
def exDeferredNeg : Sprite where
  anchor := ⟨0, 0⟩
  _texture := ⟨⟨0, 0, 100, 50⟩, none⟩
  _width := 200
  _height := 300
  scale := ⟨-1, -2⟩
  worldTransform := ⟨1, 0, 0, 1, 0, 0⟩
  textureDirty := false
  vertexData := fun _ => 0

end Pixi

open Pixi

/-- C1: without a trim rectangle, `calculateVertices` computes the half-extents
`w0 = W·(1-ax)`, `w1 = -W·ax`, `h0 = H·(1-ay)`, `h1 = -H·ay` and writes the
corners `(w1,h1), (w0,h1), (w0,h0), (w1,h0)` mapped through
`x' = a·wx + c·hy + tx`, `y' = d·hy + b·wx + ty`, in that order, into slots
0–7; with the identity transform, anchor (0.5, 0.5) and frame 10×10 the
corners are (-5,-5), (5,-5), (5,5), (-5,5). -/
theorem calculateVertices_noTrim (s : Sprite) (hTrim : s._texture.trim = none) :
    (let a := s.worldTransform.a
     let b := s.worldTransform.b
     let c := s.worldTransform.c
     let d := s.worldTransform.d
     let tx := s.worldTransform.tx
     let ty := s.worldTransform.ty
     let W := s._texture.orig.width
     let H := s._texture.orig.height
     let w0 := W * (1 - s.anchor.x)
     let w1 := -(W * s.anchor.x)
     let h0 := H * (1 - s.anchor.y)
     let h1 := -(H * s.anchor.y)
     (calculateVertices s).vertexData 0 = a * w1 + c * h1 + tx ∧
     (calculateVertices s).vertexData 1 = d * h1 + b * w1 + ty ∧
     (calculateVertices s).vertexData 2 = a * w0 + c * h1 + tx ∧
     (calculateVertices s).vertexData 3 = d * h1 + b * w0 + ty ∧
     (calculateVertices s).vertexData 4 = a * w0 + c * h0 + tx ∧
     (calculateVertices s).vertexData 5 = d * h0 + b * w0 + ty ∧
     (calculateVertices s).vertexData 6 = a * w1 + c * h0 + tx ∧
     (calculateVertices s).vertexData 7 = d * h0 + b * w1 + ty) ∧
    (∀ i : Fin 16, 8 ≤ i.val → (calculateVertices s).vertexData i = s.vertexData i) := by
  constructor
  · refine ⟨?_, ?_, ?_, ?_, ?_, ?_, ?_, ?_⟩ <;>
      simp [calculateVertices, setSlot, w0val, w1val, h0val, h1val, hTrim] <;> ring
  · intro i hi
    fin_cases i <;> simp_all [calculateVertices, setSlot]

/-- Witness for C1 at the concrete centered sprite: the trim is absent and the
slot equations hold there; the corners evaluate to (-5,-5), (5,-5), (5,5),
(-5,5). -/
theorem calculateVertices_noTrim_witness :
    exCentered._texture.trim = none ∧
    (calculateVertices exCentered).vertexData 0 = -5 ∧
    (calculateVertices exCentered).vertexData 1 = -5 ∧
    (calculateVertices exCentered).vertexData 2 = 5 ∧
    (calculateVertices exCentered).vertexData 3 = -5 ∧
    (calculateVertices exCentered).vertexData 4 = 5 ∧
    (calculateVertices exCentered).vertexData 5 = 5 ∧
    (calculateVertices exCentered).vertexData 6 = -5 ∧
    (calculateVertices exCentered).vertexData 7 = 5 := by
  obtain ⟨h0, h1, h2, h3, h4, h5, h6, h7⟩ := (calculateVertices_noTrim exCentered rfl).1
  exact ⟨rfl, by rw [h0]; norm_num [exCentered], by rw [h1]; norm_num [exCentered],
    by rw [h2]; norm_num [exCentered], by rw [h3]; norm_num [exCentered],
    by rw [h4]; norm_num [exCentered], by rw [h5]; norm_num [exCentered],
    by rw [h6]; norm_num [exCentered], by rw [h7]; norm_num [exCentered]⟩

/-- C2: with a trim rectangle `(tx0, ty0, tw, th)`, `calculateVertices`
computes `w1 = tx0 - ax·W`, `w0 = w1 + tw`, `h1 = ty0 - ay·H`, `h0 = h1 + th`
and transforms the fixed corner order `(w1,h1), (w0,h1), (w0,h0), (w1,h0)`
into slots 0–7; with frame 10×10, trim {x:2, y:3, width:4, height:5}, anchor
(0,0) and the identity transform the corners are (2,3), (6,3), (6,8), (2,8). -/
theorem calculateVertices_trim (s : Sprite) (t : Rect)
    (hTrim : s._texture.trim = some t) :
    (let a := s.worldTransform.a
     let b := s.worldTransform.b
     let c := s.worldTransform.c
     let d := s.worldTransform.d
     let tx := s.worldTransform.tx
     let ty := s.worldTransform.ty
     let W := s._texture.orig.width
     let H := s._texture.orig.height
     let w1 := t.x - s.anchor.x * W
     let w0 := w1 + t.width
     let h1 := t.y - s.anchor.y * H
     let h0 := h1 + t.height
     (calculateVertices s).vertexData 0 = a * w1 + c * h1 + tx ∧
     (calculateVertices s).vertexData 1 = d * h1 + b * w1 + ty ∧
     (calculateVertices s).vertexData 2 = a * w0 + c * h1 + tx ∧
     (calculateVertices s).vertexData 3 = d * h1 + b * w0 + ty ∧
     (calculateVertices s).vertexData 4 = a * w0 + c * h0 + tx ∧
     (calculateVertices s).vertexData 5 = d * h0 + b * w0 + ty ∧
     (calculateVertices s).vertexData 6 = a * w1 + c * h0 + tx ∧
     (calculateVertices s).vertexData 7 = d * h0 + b * w1 + ty) := by
  refine ⟨?_, ?_, ?_, ?_, ?_, ?_, ?_, ?_⟩ <;>
    simp [calculateVertices, setSlot, w0val, w1val, h0val, h1val, hTrim] <;> ring

/-- Witness for C2 at the trimmed example sprite: the trim is present there
and the render-quad corners evaluate to (2,3), (6,3), (6,8), (2,8). -/
theorem calculateVertices_trim_witness :
    exTrimmed._texture.trim = some ⟨2, 3, 4, 5⟩ ∧
    (calculateVertices exTrimmed).vertexData 0 = 2 ∧
    (calculateVertices exTrimmed).vertexData 1 = 3 ∧
    (calculateVertices exTrimmed).vertexData 2 = 6 ∧
    (calculateVertices exTrimmed).vertexData 3 = 3 ∧
    (calculateVertices exTrimmed).vertexData 4 = 6 ∧
    (calculateVertices exTrimmed).vertexData 5 = 8 ∧
    (calculateVertices exTrimmed).vertexData 6 = 2 ∧
    (calculateVertices exTrimmed).vertexData 7 = 8 := by
  obtain ⟨h0, h1, h2, h3, h4, h5, h6, h7⟩ :=
    calculateVertices_trim exTrimmed ⟨2, 3, 4, 5⟩ rfl
  exact ⟨rfl, by rw [h0]; norm_num [exTrimmed], by rw [h1]; norm_num [exTrimmed],
    by rw [h2]; norm_num [exTrimmed], by rw [h3]; norm_num [exTrimmed],
    by rw [h4]; norm_num [exTrimmed], by rw [h5]; norm_num [exTrimmed],
    by rw [h6]; norm_num [exTrimmed], by rw [h7]; norm_num [exTrimmed]⟩

/-- C3: when there is no trim, or the trim's width and height both equal the
logical frame's, `calculateBoundsVertices` copies slots 0–7 verbatim into
slots 8–15; otherwise it recomputes slots 8–15 from the untrimmed half-extent
formulas against the current transform, for every content of the geometry
buffer alike (so without reading or depending on slots 0–7). -/
theorem calculateBoundsVertices_spec (s : Sprite) :
    ((s._texture.trim = none ∨
        ∃ t, s._texture.trim = some t ∧ t.width = s._texture.orig.width ∧
          t.height = s._texture.orig.height) →
      ((calculateBoundsVertices s).vertexData 8 = s.vertexData 0 ∧
       (calculateBoundsVertices s).vertexData 9 = s.vertexData 1 ∧
       (calculateBoundsVertices s).vertexData 10 = s.vertexData 2 ∧
       (calculateBoundsVertices s).vertexData 11 = s.vertexData 3 ∧
       (calculateBoundsVertices s).vertexData 12 = s.vertexData 4 ∧
       (calculateBoundsVertices s).vertexData 13 = s.vertexData 5 ∧
       (calculateBoundsVertices s).vertexData 14 = s.vertexData 6 ∧
       (calculateBoundsVertices s).vertexData 15 = s.vertexData 7)) ∧
    (∀ t, s._texture.trim = some t →
      ¬(t.width = s._texture.orig.width ∧ t.height = s._texture.orig.height) →
      ∀ vd' : Fin 16 → ℚ,
        (let s' : Sprite := { s with vertexData := vd' }
         let a := s.worldTransform.a
         let b := s.worldTransform.b
         let c := s.worldTransform.c
         let d := s.worldTransform.d
         let tx := s.worldTransform.tx
         let ty := s.worldTransform.ty
         let w0 := s._texture.orig.width * (1 - s.anchor.x)
         let w1 := s._texture.orig.width * (-s.anchor.x)
         let h0 := s._texture.orig.height * (1 - s.anchor.y)
         let h1 := s._texture.orig.height * (-s.anchor.y)
         (calculateBoundsVertices s').vertexData 8 = a * w1 + c * h1 + tx ∧
         (calculateBoundsVertices s').vertexData 9 = d * h1 + b * w1 + ty ∧
         (calculateBoundsVertices s').vertexData 10 = a * w0 + c * h1 + tx ∧
         (calculateBoundsVertices s').vertexData 11 = d * h1 + b * w0 + ty ∧
         (calculateBoundsVertices s').vertexData 12 = a * w0 + c * h0 + tx ∧
         (calculateBoundsVertices s').vertexData 13 = d * h0 + b * w0 + ty ∧
         (calculateBoundsVertices s').vertexData 14 = a * w1 + c * h0 + tx ∧
         (calculateBoundsVertices s').vertexData 15 = d * h0 + b * w1 + ty)) := by
  constructor
  · rintro (hNone | ⟨t, hSome, hw, hh⟩)
    · refine ⟨?_, ?_, ?_, ?_, ?_, ?_, ?_, ?_⟩ <;>
        simp [calculateBoundsVertices, hNone, copyBounds, setSlot]
    · refine ⟨?_, ?_, ?_, ?_, ?_, ?_, ?_, ?_⟩ <;>
        simp [calculateBoundsVertices, hSome, hw, hh, copyBounds, setSlot]
  · intro t hSome hne vd'
    refine ⟨?_, ?_, ?_, ?_, ?_, ?_, ?_, ?_⟩ <;>
      simp [calculateBoundsVertices, hSome, hne, recomputeBounds, setSlot]

/-- Witness for C3 at the full-trim example sprite: its trim dimensions equal
the logical frame's, so all eight bounds slots copy the render slots; slot 8
in particular copies the distinctive value stored in slot 0. -/
theorem calculateBoundsVertices_spec_witness :
    (exFullTrim._texture.trim = some ⟨1, 2, 10, 10⟩) ∧
    (calculateBoundsVertices exFullTrim).vertexData 8 = exFullTrim.vertexData 0 ∧
    (calculateBoundsVertices exFullTrim).vertexData 15 = exFullTrim.vertexData 7 := by
  have h := (calculateBoundsVertices_spec exFullTrim).1
    (Or.inr ⟨⟨1, 2, 10, 10⟩, rfl, rfl, rfl⟩)
  exact ⟨rfl, h.1, h.2.2.2.2.2.2.2⟩

/-- C9: `calculateVertices` is idempotent — running it a second time with no
intervening change to the sprite state reproduces exactly the state left by
the first run (identical 16-slot buffer, nothing else touched). -/
theorem calculateVertices_idempotent (s : Sprite) :
    calculateVertices (calculateVertices s) = calculateVertices s := by
  refine Sprite.ext rfl rfl rfl rfl rfl rfl rfl ?_
  funext j
  fin_cases j <;> simp [calculateVertices, setSlot, w1val, w0val, h1val, h0val]

/-- C10: the two calculators partition the geometry buffer —
`calculateVertices` leaves slots 8–15 unchanged and `calculateBoundsVertices`
leaves slots 0–7 unchanged, for every sprite state. -/
theorem vertexData_partition :
    (∀ (s : Sprite) (i : Fin 16), 8 ≤ i.val →
      (calculateVertices s).vertexData i = s.vertexData i) ∧
    (∀ (s : Sprite) (i : Fin 16), i.val < 8 →
      (calculateBoundsVertices s).vertexData i = s.vertexData i) := by
  constructor
  · intro s i hi
    fin_cases i <;> simp_all [calculateVertices, setSlot]
  · intro s i hi
    have hcopy : (copyBounds s).vertexData i = s.vertexData i := by
      fin_cases i <;> simp_all [copyBounds, setSlot]
    have hrec : (recomputeBounds s).vertexData i = s.vertexData i := by
      fin_cases i <;> simp_all [recomputeBounds, setSlot]
    rcases h : s._texture.trim with _ | t
    · simpa [calculateBoundsVertices, h] using hcopy
    · by_cases hc : t.width = s._texture.orig.width ∧
          t.height = s._texture.orig.height
      · simpa [calculateBoundsVertices, h, hc] using hcopy
      · simpa [calculateBoundsVertices, h, hc] using hrec

/-- Witness for C10 at the full-trim example sprite: slot 8 survives
`calculateVertices` and slot 0 survives `calculateBoundsVertices`. -/
theorem vertexData_partition_witness :
    (calculateVertices exFullTrim).vertexData 8 = exFullTrim.vertexData 8 ∧
    (calculateBoundsVertices exFullTrim).vertexData 0 = exFullTrim.vertexData 0 :=
  ⟨vertexData_partition.1 exFullTrim 8 (by decide),
   vertexData_partition.2 exFullTrim 0 (by decide)⟩

/-- Unrolled comparison `if b < a then b else a` is `min a b`. -/
theorem ite_lt_min (a b : ℚ) : (if b < a then b else a) = min a b := by
  rcases lt_or_ge b a with h | h
  · rw [if_pos h, min_eq_right h.le]
  · rw [if_neg (not_lt.mpr h), min_eq_left h]

/-- Unrolled comparison `if a < b then a else b` is `min a b`. -/
theorem ite_lt_min' (a b : ℚ) : (if a < b then a else b) = min a b := by
  rcases lt_or_ge a b with h | h
  · rw [if_pos h, min_eq_left h.le]
  · rw [if_neg (not_lt.mpr h), min_eq_right h]

/-- Unrolled comparison `if b > a then b else a` is `max a b`. -/
theorem ite_gt_max (a b : ℚ) : (if b > a then b else a) = max a b := by
  rcases lt_or_ge a b with h | h
  · rw [if_pos h, max_eq_right h.le]
  · rw [if_neg (not_lt.mpr h), max_eq_left h]

/-- Unrolled comparison `if a > b then a else b` is `max a b`. -/
theorem ite_gt_max' (a b : ℚ) : (if a > b then a else b) = max a b := by
  rcases lt_or_ge b a with h | h
  · rw [if_pos h, max_eq_left h.le]
  · rw [if_neg (not_lt.mpr h), max_eq_right h]

set_option maxHeartbeats 1600000 in
/-- C4: `getBounds` returns the axis-aligned rectangle
`(minX, minY, maxX - minX, maxY - minY)` with min/max ranging over the four
bounds-quad corner points, widened by the child-aggregate rectangle exactly
when at least one child exists; uniting own rectangle (0,0,8,8) with child
rectangle (5,5,10,10) yields (0,0,15,15). -/
theorem getBounds_spec :
    (∀ (s : Sprite) (n : Nat) (cb : Rect),
      getBounds s n cb =
        (let vd := (calculateBoundsVertices s).vertexData
         let mnX := min (min (min (vd 8) (vd 10)) (vd 12)) (vd 14)
         let mnY := min (min (min (vd 9) (vd 11)) (vd 13)) (vd 15)
         let mxX := max (max (max (vd 8) (vd 10)) (vd 12)) (vd 14)
         let mxY := max (max (max (vd 9) (vd 11)) (vd 13)) (vd 15)
         if n ≠ 0 then
           let mnX := min mnX cb.x
           let mnY := min mnY cb.y
           let mxX := max mxX (cb.x + cb.width)
           let mxY := max mxY (cb.y + cb.height)
           ⟨mnX, mnY, mxX - mnX, mxY - mnY⟩
         else ⟨mnX, mnY, mxX - mnX, mxY - mnY⟩)) ∧
    getBounds exBounds8 1 ⟨5, 5, 10, 10⟩ = ⟨0, 0, 15, 15⟩ := by
  constructor
  · intro s n cb
    simp only [getBounds]
    generalize (calculateBoundsVertices s).vertexData 8 = p1
    generalize (calculateBoundsVertices s).vertexData 9 = q1
    generalize (calculateBoundsVertices s).vertexData 10 = p2
    generalize (calculateBoundsVertices s).vertexData 11 = q2
    generalize (calculateBoundsVertices s).vertexData 12 = p3
    generalize (calculateBoundsVertices s).vertexData 13 = q3
    generalize (calculateBoundsVertices s).vertexData 14 = p4
    generalize (calculateBoundsVertices s).vertexData 15 = q4
    simp only [ite_lt_min', ite_gt_max']
    by_cases hn : n ≠ 0
    · simp only [if_pos hn, Rect.mk.injEq]
      refine ⟨?_, ?_, ?_, ?_⟩
      · simp [min_comm, min_assoc, min_left_comm]
      · simp [min_comm, min_assoc, min_left_comm]
      · congr 1
        · simp [max_comm, max_assoc, max_left_comm]
        · simp [min_comm, min_assoc, min_left_comm]
      · congr 1
        · simp [max_comm, max_assoc, max_left_comm]
        · simp [min_comm, min_assoc, min_left_comm]
    · simp only [if_neg hn, Rect.mk.injEq]
      refine ⟨?_, ?_, ?_, ?_⟩
      · simp [min_comm, min_assoc, min_left_comm]
      · simp [min_comm, min_assoc, min_left_comm]
      · congr 1
        · simp [max_comm, max_assoc, max_left_comm]
        · simp [min_comm, min_assoc, min_left_comm]
      · congr 1
        · simp [max_comm, max_assoc, max_left_comm]
        · simp [min_comm, min_assoc, min_left_comm]
  · have hcb : calculateBoundsVertices exBounds8 = copyBounds exBounds8 := rfl
    have e8 : (calculateBoundsVertices exBounds8).vertexData 8 = 0 := by
      rw [hcb]
      simp [copyBounds, setSlot, exBounds8, calculateVertices, w1val, h1val]
    have e9 : (calculateBoundsVertices exBounds8).vertexData 9 = 0 := by
      rw [hcb]
      simp [copyBounds, setSlot, exBounds8, calculateVertices, w1val, h1val]
    have e10 : (calculateBoundsVertices exBounds8).vertexData 10 = 8 := by
      rw [hcb]
      simp [copyBounds, setSlot, exBounds8, calculateVertices, w0val, w1val,
        h1val]
    have e11 : (calculateBoundsVertices exBounds8).vertexData 11 = 0 := by
      rw [hcb]
      simp [copyBounds, setSlot, exBounds8, calculateVertices, w0val, w1val,
        h1val]
    have e12 : (calculateBoundsVertices exBounds8).vertexData 12 = 8 := by
      rw [hcb]
      simp [copyBounds, setSlot, exBounds8, calculateVertices, w0val, w1val,
        h0val, h1val]
    have e13 : (calculateBoundsVertices exBounds8).vertexData 13 = 8 := by
      rw [hcb]
      simp [copyBounds, setSlot, exBounds8, calculateVertices, w0val, w1val,
        h0val, h1val]
    have e14 : (calculateBoundsVertices exBounds8).vertexData 14 = 0 := by
      rw [hcb]
      simp [copyBounds, setSlot, exBounds8, calculateVertices, w0val, w1val,
        h0val, h1val]
    have e15 : (calculateBoundsVertices exBounds8).vertexData 15 = 8 := by
      rw [hcb]
      simp [copyBounds, setSlot, exBounds8, calculateVertices, w0val, w1val,
        h0val, h1val]
    simp only [getBounds, e8, e9, e10, e11, e12, e13, e14, e15]
    norm_num

/-- C8: `getLocalBounds` returns `(-W·ax, -H·ay, W, H)` for every sprite, and
its result depends only on the logical frame and the anchor — sprites agreeing
on those (however their trim or world transform differ) get equal results. -/
theorem getLocalBounds_spec :
    (∀ s : Sprite,
      getLocalBounds s =
        ⟨-(s._texture.orig.width * s.anchor.x),
         -(s._texture.orig.height * s.anchor.y),
         s._texture.orig.width, s._texture.orig.height⟩) ∧
    (∀ s₁ s₂ : Sprite,
      s₁._texture.orig.width = s₂._texture.orig.width →
      s₁._texture.orig.height = s₂._texture.orig.height →
      s₁.anchor = s₂.anchor →
      getLocalBounds s₁ = getLocalBounds s₂) := by
  constructor
  · intro s
    simp [getLocalBounds, neg_mul]
  · intro s₁ s₂ hw hh ha
    simp [getLocalBounds, hw, hh, ha]

/-- Witness for C8: a sprite and its variant with a different world transform
and a trim rectangle added have the same local bounds. -/
theorem getLocalBounds_witness :
    getLocalBounds exAnchor0 =
      getLocalBounds
        { exAnchor0 with
            worldTransform := ⟨2, 1, 1, 3, 4, 5⟩
            _texture := ⟨⟨0, 0, 10, 10⟩, some ⟨1, 1, 2, 2⟩⟩ } :=
  getLocalBounds_spec.2 _ _ rfl rfl rfl

/-- C5: `containsPoint` returns true exactly when the inverse-transformed
local point lies strictly inside the anchored logical box; boundary points are
excluded, so for frame 10×10, anchor (0,0) and the identity transform the
points (0,0) and (10,10) are rejected while (5,5) is accepted. -/
theorem containsPoint_spec :
    (∀ (s : Sprite) (p : Point),
      containsPoint s p = true ↔
        (let lp := Matrix.applyInverse s.worldTransform p
         let x1 := -s._texture.orig.width * s.anchor.x
         let y1 := -s._texture.orig.height * s.anchor.y
         x1 < lp.x ∧ lp.x < x1 + s._texture.orig.width ∧
         y1 < lp.y ∧ lp.y < y1 + s._texture.orig.height)) ∧
    containsPoint exAnchor0 ⟨0, 0⟩ = false ∧
    containsPoint exAnchor0 ⟨5, 5⟩ = true ∧
    containsPoint exAnchor0 ⟨10, 10⟩ = false := by
  refine ⟨?_, ?_, ?_, ?_⟩
  · intro s p
    simp only [containsPoint]
    split
    · split
      · simp_all
      · simp_all
    · simp_all
  · norm_num [containsPoint, Matrix.applyInverse, exAnchor0]
  · norm_num [containsPoint, Matrix.applyInverse, exAnchor0]
  · norm_num [containsPoint, Matrix.applyInverse, exAnchor0]

/-- The sign helper returns zero exactly at zero. -/
theorem utilsSign_eq_zero_iff (x : ℚ) : utils.sign x = 0 ↔ x = 0 := by
  rcases lt_trichotomy x 0 with h | h | h
  · simp [utils.sign, asymm h, h, h.ne]
  · simp [utils.sign, h]
  · simp [utils.sign, h, h.ne']

/-- The sign-or-one multiplier used by the width/height setters has absolute
value one. -/
theorem abs_sign_or_one (x : ℚ) :
    |(if utils.sign x = 0 then 1 else utils.sign x)| = 1 := by
  rcases lt_trichotomy x 0 with h | h | h
  · simp [utils.sign, asymm h, h]
  · simp [utils.sign, h]
  · simp [utils.sign, h, asymm h]

/-- Counterexample to C6 as stated: the claim's round trip fails for negative
written values.  With logical width 100 (> 0) and scale.x = -1, writing width
-200 makes a subsequent width read return 200, not -200. -/
theorem width_roundTrip_neg_counterexample :
    0 < exSize._texture.orig.width ∧
    width_get (width_set exSize (-200)) = 200 ∧
    width_get (width_set exSize (-200)) ≠ -200 := by
  refine ⟨by norm_num [exSize], ?_, ?_⟩ <;>
    norm_num [width_get, width_set, exSize, utils.sign]

/-- C6 (amended): reading width returns `|scaleX|·W`; writing `v` sets
`scaleX = s·v/W` with `s = sign(scaleX)` or 1 when `scaleX = 0` and remembers
`v`; and for `W > 0` and `v ≥ 0` a subsequent width read returns `v`.
Symmetrically for height/scaleY. -/
theorem width_height_accessors (s : Sprite) (v : ℚ) :
    (width_get s = |s.scale.x| * s._texture.orig.width) ∧
    ((width_set s v).scale.x =
      (if s.scale.x = 0 then 1 else utils.sign s.scale.x) * v /
        s._texture.orig.width) ∧
    ((width_set s v)._width = v) ∧
    (0 < s._texture.orig.width → 0 ≤ v → width_get (width_set s v) = v) ∧
    (height_get s = |s.scale.y| * s._texture.orig.height) ∧
    ((height_set s v).scale.y =
      (if s.scale.y = 0 then 1 else utils.sign s.scale.y) * v /
        s._texture.orig.height) ∧
    ((height_set s v)._height = v) ∧
    (0 < s._texture.orig.height → 0 ≤ v → height_get (height_set s v) = v) := by
  refine ⟨rfl, ?_, rfl, ?_, rfl, ?_, rfl, ?_⟩
  · simp only [width_set, utilsSign_eq_zero_iff]
  · intro hW hv
    simp only [width_get, width_set, abs_mul, abs_div, abs_sign_or_one,
      abs_of_nonneg hv, abs_of_pos hW, one_mul]
    field_simp
  · simp only [height_set, utilsSign_eq_zero_iff]
  · intro hH hv
    simp only [height_get, height_set, abs_mul, abs_div, abs_sign_or_one,
      abs_of_nonneg hv, abs_of_pos hH, one_mul]
    field_simp

/-- Witness for C6 (amended) at the spec's round-trip example: logical width
100, scale.x = -1, writing 200 yields scale.x = -2 and a width read of 200. -/
theorem width_height_accessors_witness :
    0 < exSize._texture.orig.width ∧ (0:ℚ) ≤ 200 ∧
    width_get (width_set exSize 200) = 200 ∧
    (width_set exSize 200).scale.x = -2 := by
  refine ⟨by norm_num [exSize], by norm_num, ?_, ?_⟩
  · exact (width_height_accessors exSize 200).2.2.2.1 (by norm_num [exSize])
      (by norm_num)
  · norm_num [width_set, exSize, utils.sign]

/-- Counterexample to C7 as stated: at current scale 0 the deferred
re-derivation does not agree with the setter's formula.  With remembered width
200 over logical width 100, `_onTextureUpdate` leaves scale.x = 0 (plain sign,
no default to 1) while the width setter would produce scale.x = 2. -/
theorem onTextureUpdate_scaleZero_counterexample :
    exDeferred.scale.x = 0 ∧ exDeferred._width = 200 ∧
    (_onTextureUpdate exDeferred).scale.x = 0 ∧
    (width_set exDeferred exDeferred._width).scale.x = 2 ∧
    (_onTextureUpdate exDeferred).scale.x ≠
      (width_set exDeferred exDeferred._width).scale.x := by
  refine ⟨rfl, rfl, ?_, ?_, ?_⟩ <;>
    norm_num [_onTextureUpdate, width_set, exDeferred, utils.sign]

/-- C7 (amended): when the remembered desired width is non-zero and the
current scale.x is non-zero, the deferred re-derivation of `_onTextureUpdate`
sets the same scale.x as the width setter applied to the remembered value
(and symmetrically for height/scale.y); at scale 0 the two differ (see the
counterexample) and a remembered value 0 is skipped. -/
theorem onTextureUpdate_agrees_setter (s : Sprite) :
    (s.scale.x ≠ 0 → s._width ≠ 0 →
      (_onTextureUpdate s).scale.x = (width_set s s._width).scale.x) ∧
    (s.scale.y ≠ 0 → s._height ≠ 0 →
      (_onTextureUpdate s).scale.y = (height_set s s._height).scale.y) := by
  constructor
  · intro hsx hw
    simp only [_onTextureUpdate, width_set, hw, if_true, ne_eq,
      not_false_eq_true, ite_true, (utilsSign_eq_zero_iff s.scale.x).not.mpr hsx,
      if_neg, ite_false]
    split <;> simp [utilsSign_eq_zero_iff, hsx]
  · intro hsy hh
    simp only [_onTextureUpdate, height_set, hh, if_true, ne_eq,
      not_false_eq_true, ite_true, (utilsSign_eq_zero_iff s.scale.y).not.mpr hsy,
      if_neg, ite_false]
    split <;> simp [utilsSign_eq_zero_iff, hsy]

/-- Witness for C7 (amended) at a sprite with non-zero scales and non-zero
remembered sizes: the deferred re-derivation and the setters agree on both
axes. -/
theorem onTextureUpdate_agrees_setter_witness :
    exDeferredNeg.scale.x ≠ 0 ∧ exDeferredNeg._width ≠ 0 ∧
    exDeferredNeg.scale.y ≠ 0 ∧ exDeferredNeg._height ≠ 0 ∧
    (_onTextureUpdate exDeferredNeg).scale.x =
      (width_set exDeferredNeg exDeferredNeg._width).scale.x ∧
    (_onTextureUpdate exDeferredNeg).scale.y =
      (height_set exDeferredNeg exDeferredNeg._height).scale.y := by
  refine ⟨by norm_num [exDeferredNeg], by norm_num [exDeferredNeg],
    by norm_num [exDeferredNeg], by norm_num [exDeferredNeg], ?_, ?_⟩
  · exact (onTextureUpdate_agrees_setter exDeferredNeg).1
      (by norm_num [exDeferredNeg]) (by norm_num [exDeferredNeg])
  · exact (onTextureUpdate_agrees_setter exDeferredNeg).2
      (by norm_num [exDeferredNeg]) (by norm_num [exDeferredNeg])
